import Mathlib

/-!
# Verification of the hlfx banking back-office core

Shallow embedding of the balance-mutation, transaction-ledger and
statement-reconstruction logic of the hlfx repository, together with the
token-authentication behaviour of the customer endpoints.

Conventions of the embedding:
* Monetary amounts are modelled as exact rationals (`ℚ`); the source stores
  JavaScript numbers, and every claim below is about the exact arithmetic the
  route handlers perform.
* MongoDB documents become Lean structures; `findOne` / `findById` become
  `List.find?` on the collection list (Mongo returns the first match), and
  `findByIdAndUpdate` becomes an update of the first matching element.
* Route handlers become pure functions `State → Request → Result × State`;
  every `save` / `findByIdAndUpdate` in the source is a state update, and a
  handler with no such call returns the state unchanged.
* External collaborators (the JWT library, bcrypt, `Math.random`, the admin
  session) are parameters of the handlers.
* JavaScript truthiness on an optional request field: a missing field, the
  empty string, and the number `0` are falsy.
-/

/-- A customer document (the fields of `CustomerSchema` that the verified
routes read or write; presentation-only fields such as phone and address are
not modelled). `password` and `transactionPin` hold the stored (hashed)
secrets. -/
structure Customer where
  id : Nat
  firstname : String
  lastname : String
  email : String
  accountNumber : String
  password : String
  balance : ℚ
  currency : String
  transactionPin : String
  deriving Repr, DecidableEq

/-- A transaction document: immutable record of one balance movement. -/
structure Transaction where
  id : Nat
  fromUserId : Nat
  toUserId : Nat
  amount : ℚ
  description : String
  createdAt : Nat
  deriving Repr, DecidableEq

/-- The persistent store: the customer collection, the transaction
collection, and a counter supplying fresh document ids. -/
structure Bank where
  customers : List Customer
  transactions : List Transaction
  nextId : Nat
  deriving Repr, DecidableEq

/-- JavaScript truthiness test for an optional string field:
`!x` is true when the field is absent or the empty string. -/
def strFalsy : Option String → Bool
  | none => true
  | some s => s == ""

/-- JavaScript truthiness test for an optional numeric field:
`!x` is true when the field is absent or equal to `0`. -/
def ratFalsy : Option ℚ → Bool
  | none => true
  | some q => q == 0

/-- `Customer.findById`: first document with the given `_id`. -/
def Bank.findById (s : Bank) (i : Nat) : Option Customer :=
  s.customers.find? (fun c => c.id == i)

/-- `Customer.findOne({ accountNumber })`. -/
def Bank.findByAccountNumber (s : Bank) (a : String) : Option Customer :=
  s.customers.find? (fun c => c.accountNumber == a)

/-- `Customer.findOne({ email })` (emails are stored lowercased by the
schema; the query value is compared as given). -/
def Bank.findByEmail (s : Bank) (e : String) : Option Customer :=
  s.customers.find? (fun c => c.email == e)

/-- Update the first element satisfying `p` (Mongo updates one document). -/
def updateFirst (p : Customer → Bool) (f : Customer → Customer) :
    List Customer → List Customer
  | [] => []
  | c :: cs => if p c then f c :: cs else c :: updateFirst p f cs

/-- `Customer.findByIdAndUpdate(i, { $inc: { balance: amt } })`. -/
def Bank.incBalance (s : Bank) (i : Nat) (amt : ℚ) : Bank :=
  let cs := updateFirst (fun c => c.id == i)
    (fun c => { c with balance := c.balance + amt }) s.customers
  { s with customers := cs }

/-- The Halifax Bank system account created on first deposit
(`new Customer({...})` in the deposit route), with the given fresh id. -/
def halifaxTemplate (i : Nat) : Customer :=
  { id := i
    firstname := "Halifax"
    lastname := "Bank"
    email := "halifax@bank.system"
    accountNumber := "HALIFAX001"
    password := "system-account"
    balance := 999999999
    currency := "USD"
    transactionPin := "1234" }

/-- `Customer.findOne({ email: 'halifax@bank.system' })`, creating the
system account when absent. -/
def getOrCreateHalifax (s : Bank) : Customer × Bank :=
  match s.findByEmail "halifax@bank.system" with
  | some h => (h, s)
  | none =>
      let h := halifaxTemplate s.nextId
      (h, { s with customers := s.customers ++ [h], nextId := s.nextId + 1 })

/-- Body of `POST /api/admin/deposit`. -/
structure DepositRequest where
  accountNumber : Option String
  amount : Option ℚ
  description : Option String
  deriving Repr, DecidableEq

/-- Outcome of `POST /api/admin/deposit`. -/
inductive DepositResult where
  /-- 401: no admin session. -/
  | unauthorized
  /-- 400: `!accountNumber || !amount`. -/
  | missingFields
  /-- 400: `amount <= 0`. -/
  | nonPositiveAmount
  /-- 404: no customer with this account number. -/
  | customerNotFound
  /-- 500: transaction population failed. -/
  | serverError
  /-- 201: deposit recorded; carries the transaction and the re-read
  customer balance (`updatedCustomer?.balance`). -/
  | success (txn : Transaction) (customerBalance : Option ℚ)
  deriving Repr, DecidableEq

/-- HTTP status of a deposit outcome. -/
def DepositResult.status : DepositResult → Nat
  | .unauthorized => 401
  | .missingFields => 400
  | .nonPositiveAmount => 400
  | .customerNotFound => 404
  | .serverError => 500
  | .success _ _ => 201

/-- `POST /api/admin/deposit`: credits a customer account from the system
account. `sessionOk` is the result of `getServerSession`; `now` is the
creation timestamp of the transaction document. -/
def adminDeposit (sessionOk : Bool) (s : Bank) (r : DepositRequest) (now : Nat) :
    DepositResult × Bank :=
  if !sessionOk then (.unauthorized, s)
  else if strFalsy r.accountNumber || ratFalsy r.amount then (.missingFields, s)
  else
    let amount := r.amount.getD 0
    let accountNumber := r.accountNumber.getD ""
    if amount ≤ 0 then (.nonPositiveAmount, s)
    else
      match s.findByAccountNumber accountNumber with
      | none => (.customerNotFound, s)
      | some customer =>
          let (halifax, s1) := getOrCreateHalifax s
          let txn : Transaction :=
            { id := s1.nextId
              fromUserId := halifax.id
              toUserId := customer.id
              amount := amount
              description :=
                if strFalsy r.description then "Deposit to account " ++ accountNumber
                else r.description.getD ""
              createdAt := now }
          let s2 : Bank :=
            { s1 with transactions := s1.transactions ++ [txn], nextId := s1.nextId + 1 }
          let s3 := s2.incBalance customer.id amount
          match s3.findById txn.fromUserId, s3.findById txn.toUserId with
          | some _, some _ => (.success txn ((s3.findById customer.id).map (·.balance)), s3)
          | _, _ => (.serverError, s3)

/-- Body of the admin peer-transfer `POST` (the transactions route). -/
structure PeerTransferRequest where
  fromUserId : Option Nat
  toUserId : Option Nat
  amount : Option ℚ
  description : Option String
  deriving Repr, DecidableEq

/-- Outcome of the admin peer-transfer `POST`. -/
inductive PeerTransferResult where
  /-- 401: no admin session. -/
  | unauthorized
  /-- 400: `!fromUserId || !toUserId || !amount`. -/
  | missingFields
  /-- 404: `!fromUser || !toUser`. -/
  | userNotFound
  /-- 400: `fromUser.balance < amount`. -/
  | insufficientBalance
  /-- 201: transaction created. -/
  | success (txn : Transaction)
  deriving Repr, DecidableEq

/-- HTTP status of a peer-transfer outcome. -/
def PeerTransferResult.status : PeerTransferResult → Nat
  | .unauthorized => 401
  | .missingFields => 400
  | .userNotFound => 404
  | .insufficientBalance => 400
  | .success _ => 201

/-- Admin peer-transfer `POST`: moves `amount` from `fromUserId` to
`toUserId`, creating one transaction record. Note the source validates only
JavaScript truthiness of `amount` (`!amount`), not `amount <= 0`. -/
def adminTransfer (sessionOk : Bool) (s : Bank) (r : PeerTransferRequest) (now : Nat) :
    PeerTransferResult × Bank :=
  if !sessionOk then (.unauthorized, s)
  else if r.fromUserId.isNone || r.toUserId.isNone || ratFalsy r.amount then
    (.missingFields, s)
  else
    let fromUserId := r.fromUserId.getD 0
    let toUserId := r.toUserId.getD 0
    let amount := r.amount.getD 0
    match s.findById fromUserId, s.findById toUserId with
    | some fromUser, some _ =>
        if fromUser.balance < amount then (.insufficientBalance, s)
        else
          let txn : Transaction :=
            { id := s.nextId
              fromUserId := fromUserId
              toUserId := toUserId
              amount := amount
              description := if strFalsy r.description then "Transfer" else r.description.getD ""
              createdAt := now }
          let s1 : Bank :=
            { s with transactions := s.transactions ++ [txn], nextId := s.nextId + 1 }
          let s2 := s1.incBalance fromUserId (-amount)
          let s3 := s2.incBalance toUserId amount
          (.success txn, s3)
    | _, _ => (.userNotFound, s)

example :
    (adminDeposit true
      { customers := [{ id := 1, firstname := "A", lastname := "B", email := "a@b.c",
                        accountNumber := "1234567890", password := "p", balance := 100,
                        currency := "USD", transactionPin := "x" }],
        transactions := [], nextId := 2 }
      { accountNumber := some "1234567890", amount := some 50, description := none }
      7).1
    = .success
      { id := 3, fromUserId := 2, toUserId := 1, amount := 50,
        description := "Deposit to account 1234567890", createdAt := 7 }
      (some 150) := by
  simp [adminDeposit, getOrCreateHalifax, Bank.findByEmail, Bank.findByAccountNumber,
    Bank.findById, Bank.incBalance, updateFirst, strFalsy, ratFalsy, halifaxTemplate,
    List.find?]; norm_num

/-- JavaScript `toLowerCase()` (character-wise lowering). -/
def lowerStr (s : String) : String := ⟨s.data.map Char.toLower⟩

/-- JavaScript `toUpperCase()` (character-wise raising). -/
def upperStr (s : String) : String := ⟨s.data.map Char.toUpper⟩

/-! ## Customer transfer endpoint (`POST /api/customer/transfer`) -/

/-- Character class of the JavaScript regex dot (`.`): any character other
than a line terminator (modelled for `\n` and `\r`). -/
def jsDot (c : Char) : Bool := c != '\n' && c != '\r'

/-- `receiverAccountNumber.replace(/(.{4})/, '****')`: replace the first
occurrence of four consecutive non-line-terminator characters by `****`;
if no such occurrence exists the string is unchanged. -/
def maskAccountNumber (s : String) : String :=
  go s.data |>.asString
where
  go : List Char → List Char
    | [] => []
    | c :: cs =>
        if (((c :: cs).take 4).length == 4 && ((c :: cs).take 4).all jsDot) then
          '*' :: '*' :: '*' :: '*' :: cs.drop 3
        else c :: go cs

/-- JavaScript `/^[A-Z]{6}[A-Z0-9]{2}([A-Z0-9]{3})?$/` (SWIFT code). -/
def swiftFormatOk (s : String) : Bool :=
  (s.length == 8 || s.length == 11) &&
    (s.data.take 6).all (fun c => c.isUpper) &&
    (s.data.drop 6).all (fun c => c.isUpper || c.isDigit)

/-- JavaScript `/^\d{lo,hi}$/`. -/
def digitRun (lo hi : Nat) (s : String) : Bool :=
  (lo ≤ s.length : Bool) && (s.length ≤ hi : Bool) && s.data.all (·.isDigit)

/-- Character class of `[a-zA-Z\s.'-]` (ASCII whitespace for `\s`). -/
def receiverNameChar (c : Char) : Bool :=
  c.isAlpha || c == ' ' || c == '\t' || c == '\n' || c == '\r' ||
    c == '\x0b' || c == '\x0c' || c == '.' || c == '\x27' || c == '-'

/-- JavaScript `/^[a-zA-Z\s.'-]{2,50}$/` (receiver name). -/
def receiverNameOk (s : String) : Bool :=
  (2 ≤ s.length : Bool) && (s.length ≤ 50 : Bool) && s.data.all receiverNameChar

/-- The supported currencies of the transfer route. -/
def supportedCurrencies : List String :=
  ["USD", "EUR", "GBP", "CAD", "AUD", "JPY", "CHF"]

/-- Body of `POST /api/customer/transfer`. `amount` is the parsed value of
the submitted amount (`none` when the field is absent). -/
structure CustomerTransferRequest where
  transferType : Option String
  receiverName : Option String
  receiverAccountNumber : Option String
  receiverBankName : Option String
  receiverSwiftCode : Option String
  receiverAddress : Option String
  amount : Option ℚ
  currency : Option String
  transactionPin : Option String
  deriving Repr, DecidableEq

/-- The `transferDetails` payload of the stubbed 503 response, together with
its `success` flag. -/
structure TransferDetails where
  success : Bool
  transferType : String
  receiverName : String
  receiverAccountNumber : String
  amount : ℚ
  fee : ℚ
  totalAmount : ℚ
  deriving Repr, DecidableEq

/-- Outcome of `POST /api/customer/transfer`. -/
inductive CustomerTransferResult where
  /-- 401: header absent or not of the form `Bearer ...`. -/
  | noToken
  /-- 401: `jwt.verify` threw. -/
  | invalidToken
  /-- 400: a required body field is falsy. -/
  | missingFields
  /-- 400: transfer type not `local`/`international`. -/
  | badTransferType
  /-- 400: amount not a positive number. -/
  | badAmount
  /-- 400: amount below the $1.00 minimum. -/
  | belowMinimum
  /-- 400: missing international fields. -/
  | missingInternationalFields
  /-- 400: SWIFT code format. -/
  | badSwiftCode
  /-- 400: bank name missing for a local transfer. -/
  | missingBankName
  /-- 400: local account number not 10-12 digits. -/
  | badLocalAccountNumber
  /-- 400: transaction PIN not 4-6 digits. -/
  | badPinFormat
  /-- 404: token subject unknown. -/
  | customerNotFound
  /-- 400: bcrypt PIN comparison failed. -/
  | invalidPin
  /-- 400: balance below the transfer amount. -/
  | insufficientBalance
  /-- 400: balance below amount plus fee. -/
  | insufficientForFee
  /-- 400: receiver name format. -/
  | badReceiverName
  /-- 400: receiver account equals the customer's own. -/
  | selfTransfer
  /-- 400: unsupported currency on an international transfer. -/
  | unsupportedCurrency
  /-- 400: amount above the $10,000 daily limit. -/
  | overDailyLimit
  /-- 503: every validation passed; the stubbed service-unavailable
  response, with `success: false` and the transfer details. -/
  | serviceUnavailable (details : TransferDetails)
  deriving Repr, DecidableEq

/-- HTTP status of a customer-transfer outcome. -/
def CustomerTransferResult.status : CustomerTransferResult → Nat
  | .noToken => 401
  | .invalidToken => 401
  | .customerNotFound => 404
  | .serviceUnavailable _ => 503
  | _ => 400

/-- Extract the bearer token from an `Authorization` header value
(`authHeader?.startsWith('Bearer ') ? authHeader.substring(7) : null`). -/
def extractBearer (authHeader : Option String) : Option String :=
  match authHeader with
  | none => none
  | some h => if h.data.take 7 == "Bearer ".data then some (h.drop 7) else none

/-- The response computed by `POST /api/customer/transfer`. `verify` models
`jwt.verify` (`none` means the library threw); `cmp` models
`bcrypt.compare` applied to the submitted PIN and the stored hash. -/
def customerTransferResult (verify : String → Option Nat)
    (cmp : String → String → Bool) (s : Bank)
    (authHeader : Option String) (r : CustomerTransferRequest) :
    CustomerTransferResult :=
  match extractBearer authHeader with
  | none => .noToken
  | some tok =>
    match verify tok with
    | none => .invalidToken
    | some customerId =>
      if strFalsy r.transferType || strFalsy r.receiverName ||
          strFalsy r.receiverAccountNumber || ratFalsy r.amount ||
          strFalsy r.transactionPin then .missingFields
      else
        let transferType := r.transferType.getD ""
        let receiverName := r.receiverName.getD ""
        let receiverAccountNumber := r.receiverAccountNumber.getD ""
        let transactionPin := r.transactionPin.getD ""
        if transferType != "local" && transferType != "international" then
          .badTransferType
        else
          let transferAmount := r.amount.getD 0
          if transferAmount ≤ 0 then .badAmount
          else if transferAmount < 1 then .belowMinimum
          else if transferType == "international" &&
              (strFalsy r.receiverBankName || strFalsy r.receiverSwiftCode ||
                strFalsy r.receiverAddress) then .missingInternationalFields
          else if transferType == "international" &&
              !swiftFormatOk (r.receiverSwiftCode.getD "") then .badSwiftCode
          else if transferType == "local" && strFalsy r.receiverBankName then
            .missingBankName
          else if transferType == "local" && !digitRun 10 12 receiverAccountNumber then
            .badLocalAccountNumber
          else if !digitRun 4 6 transactionPin then .badPinFormat
          else
            match s.findById customerId with
            | none => .customerNotFound
            | some customer =>
              if !cmp transactionPin customer.transactionPin then .invalidPin
              else if customer.balance < transferAmount then .insufficientBalance
              else
                let transferFee : ℚ :=
                  if transferType == "international" then transferAmount * (2 / 100)
                  else 5 / 2
                let totalAmount := transferAmount + transferFee
                if customer.balance < totalAmount then .insufficientForFee
                else if !receiverNameOk receiverName then .badReceiverName
                else if receiverAccountNumber == customer.accountNumber then
                  .selfTransfer
                else if transferType == "international" && !strFalsy r.currency &&
                    !supportedCurrencies.contains (upperStr (r.currency.getD "")) then
                  .unsupportedCurrency
                else if transferAmount > 10000 then .overDailyLimit
                else
                  .serviceUnavailable
                    { success := false
                      transferType := transferType
                      receiverName := receiverName
                      receiverAccountNumber := maskAccountNumber receiverAccountNumber
                      amount := transferAmount
                      fee := transferFee
                      totalAmount := totalAmount }

/-- `POST /api/customer/transfer`: the route performs no store write, so
the state is returned unchanged alongside the computed response. -/
def customerTransfer (verify : String → Option Nat)
    (cmp : String → String → Bool) (s : Bank)
    (authHeader : Option String) (r : CustomerTransferRequest) :
    CustomerTransferResult × Bank :=
  (customerTransferResult verify cmp s authHeader r, s)

/-! ## Statement endpoint (`GET /api/customer/statement`) -/

/-- The route's debit test: the populated `fromUserId` equals the token's
customer id (a self-transaction therefore counts as a debit). -/
def isDebitFor (cid : Nat) (t : Transaction) : Bool := t.fromUserId == cid

/-- The Mongo query filter: the customer is involved and the creation date
lies within `[startDate, endDate]`. -/
def inRangeFor (cid startDate endDate : Nat) (t : Transaction) : Bool :=
  (t.fromUserId == cid || t.toUserId == cid) &&
    (startDate ≤ t.createdAt : Bool) && (t.createdAt ≤ endDate : Bool)

/-- `sort({ createdAt: 1 })`. -/
def byDate (a b : Transaction) : Bool := (a.createdAt ≤ b.createdAt : Bool)

/-- The in-range transactions of the customer in chronological order. -/
def statementTxns (s : Bank) (cid startDate endDate : Nat) : List Transaction :=
  (s.transactions.filter (inRangeFor cid startDate endDate)).mergeSort byDate

/-- Backward pass: starting from the current balance, add back each debit
and subtract back each credit (`transactions.forEach` in the source). -/
def openingBalanceCalc (cid : Nat) (balance : ℚ) (ts : List Transaction) : ℚ :=
  ts.foldl (fun b t => if isDebitFor cid t then b + t.amount else b - t.amount) balance

/-- One line of the generated statement (the fields the claims are about). -/
structure StatementEntry where
  txId : Nat
  date : Nat
  isDebit : Bool
  amount : ℚ
  balance : ℚ
  deriving Repr, DecidableEq

/-- Accumulator of the forward pass: the mutable
`totalCredits`/`totalDebits`/`creditCount`/`debitCount` of the source and
the entries produced so far. -/
structure ReplayAcc where
  totalCredits : ℚ
  totalDebits : ℚ
  creditCount : Nat
  debitCount : Nat
  entries : List StatementEntry
  deriving Repr, DecidableEq

/-- One step of the forward pass (`transactions.map` in the source): update
the running totals and emit the entry with
`runningBalance = openingBalance + totalCredits - totalDebits`. -/
def replayStep (cid : Nat) (opening : ℚ) (acc : ReplayAcc) (t : Transaction) :
    ReplayAcc :=
  let isDebit := isDebitFor cid t
  let tc := if isDebit then acc.totalCredits else acc.totalCredits + t.amount
  let td := if isDebit then acc.totalDebits + t.amount else acc.totalDebits
  { totalCredits := tc
    totalDebits := td
    creditCount := if isDebit then acc.creditCount else acc.creditCount + 1
    debitCount := if isDebit then acc.debitCount + 1 else acc.debitCount
    entries := acc.entries ++
      [{ txId := t.id, date := t.createdAt, isDebit := isDebit, amount := t.amount,
         balance := opening + tc - td }] }

/-- The forward pass over the chronological transaction list. -/
def replay (cid : Nat) (opening : ℚ) (ts : List Transaction) : ReplayAcc :=
  ts.foldl (replayStep cid opening) ⟨0, 0, 0, 0, []⟩

/-- Sum of the amounts of the transactions crediting the customer (those
whose source is another account), used to state the reconstruction
claims. -/
def creditSum (cid : Nat) (ts : List Transaction) : ℚ :=
  ((ts.filter (fun t => !isDebitFor cid t)).map Transaction.amount).sum

/-- Sum of the amounts of the transactions debiting the customer. -/
def debitSum (cid : Nat) (ts : List Transaction) : ℚ :=
  ((ts.filter (fun t => isDebitFor cid t)).map Transaction.amount).sum

/-- The `summary` object of the statement response. -/
structure StatementSummary where
  openingBalance : ℚ
  closingBalance : ℚ
  totalCredits : ℚ
  totalDebits : ℚ
  netChange : ℚ
  transactionCount : Nat
  creditCount : Nat
  debitCount : Nat
  deriving Repr, DecidableEq

/-- Outcome of `GET /api/customer/statement`. -/
inductive StatementResult where
  /-- 401: header absent, not `Bearer ...`, or empty token. -/
  | noToken
  /-- 401: `jwt.verify` threw. -/
  | invalidToken
  /-- 400: start date after end date. -/
  | badDateRange
  /-- 404: token subject unknown. -/
  | customerNotFound
  /-- 200: the statement; `pdf` marks the `format=pdf` variant. -/
  | ok (pdf : Bool) (summary : StatementSummary) (entries : List StatementEntry)
  /-- 400: unknown `format` value. -/
  | badFormat
  deriving Repr, DecidableEq

/-- HTTP status of a statement outcome. -/
def StatementResult.status : StatementResult → Nat
  | .noToken => 401
  | .invalidToken => 401
  | .badDateRange => 400
  | .customerNotFound => 404
  | .ok _ _ _ => 200
  | .badFormat => 400

/-- The response `message` of the statement route's failure branches
(the source's literal message strings). -/
def StatementResult.message : StatementResult → String
  | .noToken => "No token provided"
  | .invalidToken => "Invalid or expired token"
  | .badDateRange => "Start date cannot be after end date"
  | .customerNotFound => "Customer not found"
  | .ok _ _ _ => ""
  | .badFormat => "Invalid format specified"

/-- `GET /api/customer/statement`. `verify` models `jwt.verify`;
`startDate`/`endDate` are the parsed query range. The route performs no
store write. -/
def customerStatement (verify : String → Option Nat) (s : Bank)
    (authHeader : Option String) (startDate endDate : Nat) (format : String) :
    StatementResult :=
  match extractBearer authHeader with
  | none => .noToken
  | some tok =>
    if tok == "" then .noToken
    else
      match verify tok with
      | none => .invalidToken
      | some cid =>
        if endDate < startDate then .badDateRange
        else
          match s.findById cid with
          | none => .customerNotFound
          | some customer =>
            let ts := statementTxns s cid startDate endDate
            let opening := openingBalanceCalc cid customer.balance ts
            let acc := replay cid opening ts
            let summary : StatementSummary :=
              { openingBalance := opening
                closingBalance := customer.balance
                totalCredits := acc.totalCredits
                totalDebits := acc.totalDebits
                netChange := acc.totalCredits - acc.totalDebits
                transactionCount := ts.length
                creditCount := acc.creditCount
                debitCount := acc.debitCount }
            if format == "json" then .ok false summary acc.entries
            else if format == "pdf" then .ok true summary acc.entries
            else .badFormat

/-! ## Registration (`POST /api/customer/auth/register`) and account
number generation (`generateUniqueAccountNumber`) -/

/-- The decimal digit character of `d` (meant for `d < 10`). -/
def digitChar (d : Nat) : Char := Char.ofNat (48 + d)

/-- Decimal digit list of a natural number. -/
def decimalDigits (n : Nat) : List Char :=
  if n < 10 then [digitChar n]
  else decimalDigits (n / 10) ++ [digitChar (n % 10)]
decreasing_by exact Nat.div_lt_self (by omega) (by omega)

/-- JavaScript template-string rendering of a number (`${randomDigits}`). -/
def natDecimal (n : Nat) : String := (decimalDigits n).asString

/-- The body of the generation loop of `generateUniqueAccountNumber`:
`rand` gives the value of
`Math.floor(1000000000 + Math.random() * 9000000000)` at each attempt, and
the loop runs while the candidate collides and fewer than `fuel` attempts
remain. -/
def genAccountLoop (rand : Nat → Nat) (customers : List Customer) :
    Nat → Nat → Option String
  | _, 0 => none
  | attempt, fuel + 1 =>
      let acct := natDecimal (rand attempt)
      if customers.all (fun c => c.accountNumber != acct) then some acct
      else genAccountLoop rand customers (attempt + 1) fuel

/-- `generateUniqueAccountNumber` (lib/accountUtils): up to 10 attempts to
draw a 10-digit number unused by any existing customer; throws after 10
failures. -/
def generateUniqueAccountNumber (rand : Nat → Nat) (customers : List Customer) :
    Except String String :=
  match genAccountLoop rand customers 0 10 with
  | some a => .ok a
  | none => .error "Failed to generate unique account number after multiple attempts"

/-- Body of `POST /api/customer/auth/register` (the fields the verified
behaviour depends on; address fields are persisted unchanged and are not
modelled). -/
structure RegisterRequest where
  firstname : Option String
  lastname : Option String
  email : Option String
  password : Option String
  transactionPin : Option String
  deriving Repr, DecidableEq

/-- Outcome of `POST /api/customer/auth/register`. -/
inductive RegisterResult where
  /-- 400: a required field is falsy. -/
  | missingFields
  /-- 400: transaction PIN not 4-6 digits. -/
  | badPinFormat
  /-- 409: `Customer.findOne({ email })` found an existing customer. -/
  | emailExists
  /-- 409: the save hit the Mongo unique index (error code 11000). -/
  | duplicateKey
  /-- 500: `generateUniqueAccountNumber` threw. -/
  | serverError
  /-- 201: the customer document created. -/
  | success (customer : Customer)
  deriving Repr, DecidableEq

/-- HTTP status of a registration outcome. -/
def RegisterResult.status : RegisterResult → Nat
  | .missingFields => 400
  | .badPinFormat => 400
  | .emailExists => 409
  | .duplicateKey => 409
  | .serverError => 500
  | .success _ => 201

/-- `POST /api/customer/auth/register`. `hash` models `bcrypt.hash`; `rand`
models the random draws of the account-number generator. The new document
stores `email.toLowerCase()`; the duplicate-email pre-check compares the
submitted email against the stored (lowercased) emails; the save aborts
with a duplicate-key error when the unique index on email or account
number is violated. -/
def register (hash : String → String) (rand : Nat → Nat) (s : Bank)
    (r : RegisterRequest) : RegisterResult × Bank :=
  if strFalsy r.firstname || strFalsy r.lastname || strFalsy r.email ||
      strFalsy r.password || strFalsy r.transactionPin then (.missingFields, s)
  else if !digitRun 4 6 (r.transactionPin.getD "") then (.badPinFormat, s)
  else
    match s.findByEmail (r.email.getD "") with
    | some _ => (.emailExists, s)
    | none =>
        match generateUniqueAccountNumber rand s.customers with
        | .error _ => (.serverError, s)
        | .ok accountNumber =>
            let newCustomer : Customer :=
              { id := s.nextId
                firstname := r.firstname.getD ""
                lastname := r.lastname.getD ""
                email := lowerStr (r.email.getD "")
                accountNumber := accountNumber
                password := hash (r.password.getD "")
                balance := 0
                currency := "USD"
                transactionPin := hash (r.transactionPin.getD "") }
            if s.customers.any (fun c =>
                c.email == newCustomer.email || c.accountNumber == accountNumber) then
              (.duplicateKey, s)
            else
              (.success newCustomer,
                { s with customers := s.customers ++ [newCustomer],
                         nextId := s.nextId + 1 })

/-! ## Concrete sample data for executable checks -/

/-- A sample customer used in concrete checks. -/
def sampleCustomer : Customer :=
  { id := 1, firstname := "Alice", lastname := "Smith", email := "alice@example.com",
    accountNumber := "1234567890", password := "hash1", balance := 100,
    currency := "USD", transactionPin := "1234" }

/-- A second sample customer. -/
def sampleCustomer2 : Customer :=
  { id := 2, firstname := "Bob", lastname := "Jones", email := "bob@example.com",
    accountNumber := "2222222222", password := "hash2", balance := 50,
    currency := "USD", transactionPin := "5678" }

/-- A sample store holding the two sample customers and no transactions. -/
def sampleBank : Bank :=
  { customers := [sampleCustomer, sampleCustomer2], transactions := [], nextId := 3 }

/-- Transactions for the statement checks: a credit of 30 (time 5) then a
debit of 20 (time 6) for the first sample customer. -/
def sampleTxns : List Transaction :=
  [{ id := 10, fromUserId := 2, toUserId := 1, amount := 30,
     description := "gift", createdAt := 5 },
   { id := 11, fromUserId := 1, toUserId := 2, amount := 20,
     description := "refund", createdAt := 6 }]

/-- Sample store with a transaction history. -/
def sampleBankTx : Bank :=
  { customers := [sampleCustomer, sampleCustomer2], transactions := sampleTxns,
    nextId := 12 }

/-! ## Helper lemmas on the store operations -/

/-- `updateFirst` rewrites the first match of `find?` when the update
preserves the predicate. -/
theorem updateFirst_find? {p : Customer → Bool} {f : Customer → Customer}
    (hf : ∀ c, p (f c) = p c) (l : List Customer) (x : Customer)
    (h : l.find? p = some x) :
    (updateFirst p f l).find? p = some (f x) := by
  induction l with
  | nil => simp [List.find?] at h
  | cons c cs ih =>
    by_cases hc : p c = true
    · rw [List.find?_cons_of_pos _ hc] at h
      injection h with h
      subst h
      rw [updateFirst, if_pos hc, List.find?_cons_of_pos _ (by rw [hf]; exact hc)]
    · rw [List.find?_cons_of_neg _ hc] at h
      rw [updateFirst, if_neg hc, List.find?_cons_of_neg _ hc]
      exact ih h

/-- With pairwise-distinct ids, looking up a member's id finds that
member. -/
theorem find?_id_of_nodup (x : Customer) (l : List Customer)
    (hx : x ∈ l) (hnd : (l.map Customer.id).Nodup) :
    l.find? (fun c => c.id == x.id) = some x := by
  induction l with
  | nil => cases hx
  | cons c cs ih =>
    rw [List.map_cons, List.nodup_cons] at hnd
    rcases List.mem_cons.mp hx with hxc | hxcs
    · subst hxc
      exact List.find?_cons_of_pos _ (by simp)
    · have hne : (c.id == x.id) = false := by
        refine beq_eq_false_iff_ne.mpr ?_
        intro hid
        exact hnd.1 (hid ▸ List.mem_map_of_mem Customer.id hxcs)
      rw [List.find?_cons_of_neg _ (by simp [hne]), ih hxcs hnd.2]

/-- Every member survives `updateFirst`, possibly updated. -/
theorem updateFirst_mem {p : Customer → Bool} {f : Customer → Customer}
    (l : List Customer) (x : Customer) (hx : x ∈ l) :
    ∃ y ∈ updateFirst p f l, y = x ∨ y = f x := by
  induction l with
  | nil => cases hx
  | cons c cs ih =>
    rcases List.mem_cons.mp hx with hxc | hxcs
    · subst hxc
      by_cases hc : p x = true
      · exact ⟨f x, by rw [updateFirst, if_pos hc]; exact List.mem_cons_self _ _, Or.inr rfl⟩
      · exact ⟨x, by rw [updateFirst, if_neg hc]; exact List.mem_cons_self _ _, Or.inl rfl⟩
    · by_cases hc : p c = true
      · exact ⟨x, by rw [updateFirst, if_pos hc]; exact List.mem_cons_of_mem _ hxcs,
          Or.inl rfl⟩
      · obtain ⟨y, hy, hyx⟩ := ih hxcs
        exact ⟨y, by rw [updateFirst, if_neg hc]; exact List.mem_cons_of_mem _ hy, hyx⟩

/-! ## Theorems for the claims -/


/-- Projections of the Halifax system-account template. -/
theorem halifaxTemplate_id (i : Nat) : (halifaxTemplate i).id = i := rfl

/-- The e-mail of the Halifax system-account template. -/
theorem halifaxTemplate_email (i : Nat) :
    (halifaxTemplate i).email = "halifax@bank.system" := rfl

/-- C1: for every admin deposit request with a positive amount `A` and an
existing customer account `X`, the deposit succeeds: afterwards `X`'s
balance equals its balance before plus `A`, and exactly one transaction
record is created, whose source is the Halifax Bank system account, whose
destination is `X`, and whose amount is `A`. (`hn` reflects the schema
invariant that stored account numbers are non-empty strings; `hnd` that
Mongo document ids are pairwise distinct.) -/
theorem adminDeposit_credits_balance
    (s : Bank) (r : DepositRequest) (now : Nat) (n : String) (A : ℚ) (X : Customer)
    (hacct : r.accountNumber = some n) (hn : n ≠ "")
    (hamt : r.amount = some A) (hA : 0 < A)
    (hX : s.findByAccountNumber n = some X)
    (hnd : (s.customers.map Customer.id).Nodup) :
    ∃ txn : Transaction,
      (adminDeposit true s r now).1 = .success txn (some (X.balance + A)) ∧
      (adminDeposit true s r now).2.transactions = s.transactions ++ [txn] ∧
      txn.toUserId = X.id ∧ txn.amount = A ∧
      (∃ H ∈ (adminDeposit true s r now).2.customers,
        H.email = "halifax@bank.system" ∧ txn.fromUserId = H.id) ∧
      (adminDeposit true s r now).2.findById X.id =
        some { X with balance := X.balance + A } := by
  have hstr : strFalsy (some n) = false := by
    simpa [strFalsy] using hn
  have hrat : ratFalsy (some A) = false := by
    simpa [ratFalsy] using hA.ne'
  have hle : ¬ A ≤ 0 := not_le.mpr hA
  have hmemX : X ∈ s.customers := List.mem_of_find?_eq_some hX
  have hfindX : s.customers.find? (fun c => c.id == X.id) = some X :=
    find?_id_of_nodup X _ hmemX hnd
  cases hhal : s.findByEmail "halifax@bank.system" with
  | some h₀ =>
    have hupd :
        (updateFirst (fun c => c.id == X.id)
          (fun c => { c with balance := c.balance + A }) s.customers).find?
            (fun c => c.id == X.id) = some { X with balance := X.balance + A } :=
      updateFirst_find? (p := fun c => c.id == X.id)
        (f := fun c => { c with balance := c.balance + A }) (fun c => rfl) _ _ hfindX
    have hmemh : h₀ ∈ s.customers := List.mem_of_find?_eq_some hhal
    have hemail : h₀.email = "halifax@bank.system" := by
      simpa using List.find?_some hhal
    obtain ⟨y, hy, hycase⟩ :=
      updateFirst_mem (p := fun c => c.id == X.id)
        (f := fun c => { c with balance := c.balance + A }) s.customers h₀ hmemh
    have hyid : y.id = h₀.id := by rcases hycase with h | h <;> subst h <;> rfl
    have hyemail : y.email = "halifax@bank.system" := by
      rcases hycase with h | h <;> subst h <;> simpa using hemail
    have hyfind :
        (updateFirst (fun c => c.id == X.id)
          (fun c => { c with balance := c.balance + A }) s.customers).find?
            (fun c => c.id == h₀.id) ≠ none := by
      intro hnone
      have hex : ∃ x ∈ updateFirst (fun c => c.id == X.id)
          (fun c => { c with balance := c.balance + A }) s.customers,
          (x.id == h₀.id) = true := ⟨y, hy, by simp [hyid]⟩
      rw [← List.find?_isSome] at hex
      rw [hnone] at hex
      simp at hex
    cases hfb : (updateFirst (fun c => c.id == X.id)
        (fun c => { c with balance := c.balance + A }) s.customers).find?
          (fun c => c.id == h₀.id) with
    | none => exact absurd hfb hyfind
    | some w =>
      have hred : adminDeposit true s r now =
          (.success
            { id := s.nextId, fromUserId := h₀.id, toUserId := X.id, amount := A,
              description := if strFalsy r.description then "Deposit to account " ++ n
                else r.description.getD "",
              createdAt := now } (some (X.balance + A)),
            { customers := updateFirst (fun c => c.id == X.id)
                (fun c => { c with balance := c.balance + A }) s.customers,
              transactions := s.transactions ++
                [{ id := s.nextId, fromUserId := h₀.id, toUserId := X.id, amount := A,
                   description := if strFalsy r.description then "Deposit to account " ++ n
                     else r.description.getD "",
                   createdAt := now }],
              nextId := s.nextId + 1 }) := by
        simp [adminDeposit, getOrCreateHalifax, Bank.incBalance, Bank.findById,
          hacct, hamt, hX, hhal, hstr, hrat, hle, hupd, hfb]
      exact ⟨_, by rw [hred], by rw [hred], rfl, rfl,
        by rw [hred]; exact ⟨y, hy, hyemail, hyid.symm⟩,
        by rw [hred]; simpa [Bank.findById] using hupd⟩
  | none =>
    have hfindX' : (s.customers ++ [halifaxTemplate s.nextId]).find?
        (fun c => c.id == X.id) = some X := by
      rw [List.find?_append, hfindX]; rfl
    have hupd :
        (updateFirst (fun c => c.id == X.id)
          (fun c => { c with balance := c.balance + A })
            (s.customers ++ [halifaxTemplate s.nextId])).find?
            (fun c => c.id == X.id) = some { X with balance := X.balance + A } :=
      updateFirst_find? (p := fun c => c.id == X.id)
        (f := fun c => { c with balance := c.balance + A }) (fun c => rfl) _ _ hfindX'
    have hmemh : halifaxTemplate s.nextId ∈ s.customers ++ [halifaxTemplate s.nextId] :=
      List.mem_append_right _ (List.mem_singleton.mpr rfl)
    obtain ⟨y, hy, hycase⟩ :=
      updateFirst_mem (p := fun c => c.id == X.id)
        (f := fun c => { c with balance := c.balance + A })
        (s.customers ++ [halifaxTemplate s.nextId]) _ hmemh
    have hyid : y.id = s.nextId := by rcases hycase with h | h <;> subst h <;> rfl
    have hyemail : y.email = "halifax@bank.system" := by
      rcases hycase with h | h <;> subst h <;> rfl
    have hyfind :
        (updateFirst (fun c => c.id == X.id)
          (fun c => { c with balance := c.balance + A })
            (s.customers ++ [halifaxTemplate s.nextId])).find?
            (fun c => c.id == s.nextId) ≠ none := by
      intro hnone
      have hex : ∃ x ∈ updateFirst (fun c => c.id == X.id)
          (fun c => { c with balance := c.balance + A })
            (s.customers ++ [halifaxTemplate s.nextId]),
          (x.id == s.nextId) = true := ⟨y, hy, by simp [hyid]⟩
      rw [← List.find?_isSome] at hex
      rw [hnone] at hex
      simp at hex
    cases hfb : (updateFirst (fun c => c.id == X.id)
        (fun c => { c with balance := c.balance + A })
          (s.customers ++ [halifaxTemplate s.nextId])).find?
          (fun c => c.id == s.nextId) with
    | none => exact absurd hfb hyfind
    | some w =>
      have hred : adminDeposit true s r now =
          (.success
            { id := s.nextId + 1, fromUserId := s.nextId, toUserId := X.id, amount := A,
              description := if strFalsy r.description then "Deposit to account " ++ n
                else r.description.getD "",
              createdAt := now } (some (X.balance + A)),
            { customers := updateFirst (fun c => c.id == X.id)
                (fun c => { c with balance := c.balance + A })
                  (s.customers ++ [halifaxTemplate s.nextId]),
              transactions := s.transactions ++
                [{ id := s.nextId + 1, fromUserId := s.nextId, toUserId := X.id, amount := A,
                   description := if strFalsy r.description then "Deposit to account " ++ n
                     else r.description.getD "",
                   createdAt := now }],
              nextId := s.nextId + 1 + 1 }) := by
        simp [adminDeposit, getOrCreateHalifax, Bank.incBalance, Bank.findById,
          halifaxTemplate_id, halifaxTemplate_email, hacct, hamt, hX, hhal, hstr, hrat,
          hle, hupd, hfb]
      exact ⟨_, by rw [hred], by rw [hred], rfl, rfl,
        by rw [hred]; exact ⟨y, hy, hyemail, hyid.symm⟩,
        by rw [hred]; simpa [Bank.findById] using hupd⟩

/-- Witness for C1: the concrete deposit of 50 into the sample store leaves
the customer with balance 150. -/
theorem adminDeposit_credits_balance_witness :
    (adminDeposit true sampleBank
      { accountNumber := some "1234567890", amount := some 50, description := none }
      7).2.findById sampleCustomer.id
      = some { sampleCustomer with balance := sampleCustomer.balance + 50 } := by
  obtain ⟨txn, -, -, -, -, -, h6⟩ :=
    adminDeposit_credits_balance sampleBank
      { accountNumber := some "1234567890", amount := some 50, description := none }
      7 "1234567890" 50 sampleCustomer rfl (by decide) rfl (by norm_num)
      (by simp [sampleBank, Bank.findByAccountNumber, sampleCustomer, sampleCustomer2])
      (by decide)
  exact h6

/-- C4: an admin peer transfer whose source balance is below the requested
amount is rejected with the insufficient-balance error (HTTP 400) and the
store is unchanged: no balance is modified and no transaction is created. -/
theorem adminTransfer_insufficient_rejects
    (s : Bank) (r : PeerTransferRequest) (now : Nat) (x y : Nat)
    (X Y : Customer) (A : ℚ)
    (hfrom : r.fromUserId = some x) (hto : r.toUserId = some y)
    (hamt : r.amount = some A) (hA : A ≠ 0)
    (hX : s.findById x = some X) (hY : s.findById y = some Y)
    (hbal : X.balance < A) :
    adminTransfer true s r now = (.insufficientBalance, s) ∧
      PeerTransferResult.insufficientBalance.status = 400 := by
  refine ⟨?_, rfl⟩
  simp [adminTransfer, hfrom, hto, hamt, ratFalsy, hA, hX, hY, hbal]

/-- Witness for C4: transferring 500 out of the 100-balance sample account
is rejected and the store is untouched. -/
theorem adminTransfer_insufficient_rejects_witness :
    adminTransfer true sampleBank
      { fromUserId := some 1, toUserId := some 2, amount := some 500,
        description := none } 3
      = (.insufficientBalance, sampleBank) ∧
      PeerTransferResult.insufficientBalance.status = 400 :=
  adminTransfer_insufficient_rejects sampleBank
    { fromUserId := some 1, toUserId := some 2, amount := some 500, description := none }
    3 1 2 sampleCustomer sampleCustomer2 500 rfl rfl rfl (by norm_num)
    (by simp [sampleBank, Bank.findById, sampleCustomer, sampleCustomer2])
    (by simp [sampleBank, Bank.findById, sampleCustomer, sampleCustomer2])
    (by norm_num [sampleCustomer])

/-- Composing two first-match updates whose inner update preserves the
predicate is one first-match update by the composite. -/
theorem updateFirst_updateFirst {p : Customer → Bool} {f g : Customer → Customer}
    (hg : ∀ c, p (g c) = p c) (l : List Customer) :
    updateFirst p f (updateFirst p g l) = updateFirst p (fun c => f (g c)) l := by
  induction l with
  | nil => rfl
  | cons c cs ih =>
    by_cases hc : p c = true
    · rw [updateFirst, if_pos hc, updateFirst, if_pos (by rw [hg]; exact hc),
        updateFirst, if_pos hc]
    · rw [updateFirst, if_neg hc, updateFirst, if_neg hc, updateFirst, if_neg hc, ih]

/-- A pointwise-identity first-match update changes nothing. -/
theorem updateFirst_eq_self {p : Customer → Bool} {f : Customer → Customer}
    (hf : ∀ c, f c = c) (l : List Customer) : updateFirst p f l = l := by
  induction l with
  | nil => rfl
  | cons c cs ih =>
    by_cases hc : p c = true
    · rw [updateFirst, if_pos hc, hf]
    · rw [updateFirst, if_neg hc, ih]

/-- C10 (amended): an admin peer transfer from an existing account to
itself with a nonzero amount `A ≤` balance is accepted: exactly one
transaction from `X` to `X` is created, and the customer collection —
hence `X`'s balance, decremented and then incremented by `A` — is
unchanged. -/
theorem adminTransfer_self_accepted
    (s : Bank) (r : PeerTransferRequest) (now : Nat) (x : Nat) (X : Customer) (A : ℚ)
    (hfrom : r.fromUserId = some x) (hto : r.toUserId = some x)
    (hamt : r.amount = some A) (hA : A ≠ 0)
    (hX : s.findById x = some X) (hbal : ¬ X.balance < A) :
    adminTransfer true s r now =
      (.success
        { id := s.nextId, fromUserId := x, toUserId := x, amount := A,
          description := if strFalsy r.description then "Transfer"
            else r.description.getD "",
          createdAt := now },
        { s with
          transactions := s.transactions ++
            [{ id := s.nextId, fromUserId := x, toUserId := x, amount := A,
               description := if strFalsy r.description then "Transfer"
                 else r.description.getD "",
               createdAt := now }],
          nextId := s.nextId + 1 }) := by
  have h1 : updateFirst (fun c => c.id == x)
      (fun c => { c with balance := c.balance + A })
      (updateFirst (fun c => c.id == x)
        (fun c => { c with balance := c.balance + -A }) s.customers)
      = s.customers := by
    rw [updateFirst_updateFirst (p := fun c => c.id == x)
      (g := fun c => { c with balance := c.balance + -A }) (fun c => rfl)]
    exact updateFirst_eq_self (fun c => by
      show ({ c with balance := c.balance + -A + A } : Customer) = c
      rw [neg_add_cancel_right]) _
  simp [adminTransfer, hfrom, hto, hamt, ratFalsy, hA, hX, hbal, Bank.incBalance, h1]

/-- Witness for C10 (amended): the concrete self-transfer of 40 in the
sample store is accepted and leaves the customers unchanged. -/
theorem adminTransfer_self_accepted_witness :
    adminTransfer true sampleBank
      { fromUserId := some 1, toUserId := some 1, amount := some 40,
        description := none } 9 =
      (.success
        { id := 3, fromUserId := 1, toUserId := 1, amount := 40,
          description := "Transfer", createdAt := 9 },
        { sampleBank with
          transactions :=
            [{ id := 3, fromUserId := 1, toUserId := 1, amount := 40,
               description := "Transfer", createdAt := 9 }],
          nextId := 4 }) := by
  have h := adminTransfer_self_accepted sampleBank
    { fromUserId := some 1, toUserId := some 1, amount := some 40, description := none }
    9 1 sampleCustomer 40 rfl rfl rfl (by norm_num)
    (by simp [sampleBank, Bank.findById, sampleCustomer, sampleCustomer2])
    (by norm_num [sampleCustomer])
  simpa [sampleBank, strFalsy] using h

/-- C10 counterexample: the same self-transfer with amount 0 — the balance
(100) is at least the amount — is rejected as a missing field instead of
being accepted, and no transaction record is created. -/
theorem adminTransfer_self_zero_rejected :
    adminTransfer true sampleBank
      { fromUserId := some 1, toUserId := some 1, amount := some 0,
        description := none } 9 = (.missingFields, sampleBank) ∧
      sampleBank.findById 1 = some sampleCustomer ∧ (0 : ℚ) ≤ sampleCustomer.balance := by
  refine ⟨by simp [adminTransfer, ratFalsy],
    by simp [sampleBank, Bank.findById, sampleCustomer],
    by norm_num [sampleCustomer]⟩

/-- The customer transfer route never writes to the store. -/
theorem customerTransfer_state (verify : String → Option Nat)
    (cmp : String → String → Bool) (s : Bank)
    (authHeader : Option String) (r : CustomerTransferRequest) :
    (customerTransfer verify cmp s authHeader r).2 = s := rfl

/-- With a valid token, a transfer amount `a ≤ 0` is stopped by one of the
three front validation checks. -/
theorem customerTransfer_nonpos (verify : String → Option Nat)
    (cmp : String → String → Bool) (s : Bank) (hdr : Option String)
    (tok : String) (cid : Nat) (rc : CustomerTransferRequest) (a : ℚ)
    (hh : extractBearer hdr = some tok) (hv : verify tok = some cid)
    (hca : rc.amount = some a) (ha : a ≤ 0) :
    (customerTransfer verify cmp s hdr rc).1 = .missingFields ∨
    (customerTransfer verify cmp s hdr rc).1 = .badTransferType ∨
    (customerTransfer verify cmp s hdr rc).1 = .badAmount := by
  simp only [customerTransfer, customerTransferResult, hh, hv, hca]
  by_cases h1 : (strFalsy rc.transferType || strFalsy rc.receiverName ||
      strFalsy rc.receiverAccountNumber || ratFalsy (some a) ||
      strFalsy rc.transactionPin) = true
  · rw [if_pos h1]; exact Or.inl rfl
  · rw [if_neg h1]
    by_cases h2 : (rc.transferType.getD "" != "local" &&
        rc.transferType.getD "" != "international") = true
    · rw [if_pos h2]; exact Or.inr (Or.inl rfl)
    · rw [if_neg h2, if_pos (by simpa using ha)]
      exact Or.inr (Or.inr rfl)

/-- C3 counterexample: the admin peer-transfer endpoint accepts a transfer
of the negative amount -5 between the two sample customers: it responds
with success (201), records a transaction of amount -5, and changes both
balances (100 → 105 and 50 → 45). -/
theorem adminTransfer_negative_accepted :
    adminTransfer true sampleBank
      { fromUserId := some 1, toUserId := some 2, amount := some (-5),
        description := none } 4 =
      (.success { id := 3, fromUserId := 1, toUserId := 2, amount := -5,
                  description := "Transfer", createdAt := 4 },
       { customers := [{ sampleCustomer with balance := 105 },
                       { sampleCustomer2 with balance := 45 }],
         transactions := [{ id := 3, fromUserId := 1, toUserId := 2, amount := -5,
                            description := "Transfer", createdAt := 4 }],
         nextId := 4 }) := by
  norm_num [adminTransfer, sampleBank, sampleCustomer, sampleCustomer2, Bank.findById,
    Bank.incBalance, ratFalsy, strFalsy, updateFirst, List.find?]
  decide

/-- C3 (amended): a transfer with amount `a ≤ 0` through the
customer-transfer endpoint (under a valid token) and an admin deposit with
amount `b ≤ 0` are rejected with a validation error (HTTP 400) and no
state change; the admin peer-transfer endpoint rejects amount `0` — as a
missing-field validation error — with no state change, but accepts
negative amounts. -/
theorem nonpositive_amount_rejected
    (verify : String → Option Nat) (cmp : String → String → Bool)
    (s1 s2 s3 : Bank) (hdr : Option String) (tok : String) (cid : Nat)
    (rc : CustomerTransferRequest) (rd : DepositRequest) (rt : PeerTransferRequest)
    (a b : ℚ) (now : Nat)
    (hh : extractBearer hdr = some tok) (hv : verify tok = some cid)
    (hca : rc.amount = some a) (ha : a ≤ 0)
    (hda : rd.amount = some b) (hb : b ≤ 0)
    (hta : rt.amount = some 0) :
    ((customerTransfer verify cmp s1 hdr rc).1.status = 400 ∧
      (customerTransfer verify cmp s1 hdr rc).2 = s1) ∧
    ((adminDeposit true s2 rd now).1.status = 400 ∧
      (adminDeposit true s2 rd now).2 = s2) ∧
    adminTransfer true s3 rt now = (.missingFields, s3) := by
  refine ⟨⟨?_, customerTransfer_state verify cmp s1 hdr rc⟩, ?_, ?_⟩
  · rcases customerTransfer_nonpos verify cmp s1 hdr tok cid rc a hh hv hca ha
      with h | h | h <;> rw [h] <;> rfl
  · by_cases hz : (strFalsy rd.accountNumber || ratFalsy rd.amount) = true
    · constructor <;> simp [adminDeposit, hz, DepositResult.status]
    · have hz' := hz
      simp only [Bool.or_eq_true, not_or, Bool.not_eq_true] at hz'
      rw [hda] at hz'
      constructor <;>
        simp [adminDeposit, hz'.1, hz'.2, hda, hb, DepositResult.status]
  · simp [adminTransfer, hta, ratFalsy]

/-- Witness for C3 (amended) at concrete requests against the sample
store. -/
theorem nonpositive_amount_rejected_witness :
    ((customerTransfer (fun t => if t == "tok" then some 1 else none)
        (fun p h => p == h) sampleBank (some "Bearer tok")
        { transferType := some "local", receiverName := some "Bob Jones",
          receiverAccountNumber := some "2222222222",
          receiverBankName := some "Halifax", receiverSwiftCode := none,
          receiverAddress := none, amount := some (-3), currency := none,
          transactionPin := some "1234" }).1.status = 400 ∧
      (customerTransfer (fun t => if t == "tok" then some 1 else none)
        (fun p h => p == h) sampleBank (some "Bearer tok")
        { transferType := some "local", receiverName := some "Bob Jones",
          receiverAccountNumber := some "2222222222",
          receiverBankName := some "Halifax", receiverSwiftCode := none,
          receiverAddress := none, amount := some (-3), currency := none,
          transactionPin := some "1234" }).2 = sampleBank) ∧
    ((adminDeposit true sampleBank
        { accountNumber := some "1234567890", amount := some (-2),
          description := none } 5).1.status = 400 ∧
      (adminDeposit true sampleBank
        { accountNumber := some "1234567890", amount := some (-2),
          description := none } 5).2 = sampleBank) ∧
    adminTransfer true sampleBank
      { fromUserId := some 1, toUserId := some 2, amount := some 0,
        description := none } 5 = (.missingFields, sampleBank) :=
  nonpositive_amount_rejected (fun t => if t == "tok" then some 1 else none)
    (fun p h => p == h) sampleBank sampleBank sampleBank (some "Bearer tok") "tok" 1
    { transferType := some "local", receiverName := some "Bob Jones",
      receiverAccountNumber := some "2222222222", receiverBankName := some "Halifax",
      receiverSwiftCode := none, receiverAddress := none, amount := some (-3),
      currency := none, transactionPin := some "1234" }
    { accountNumber := some "1234567890", amount := some (-2), description := none }
    { fromUserId := some 1, toUserId := some 2, amount := some 0, description := none }
    (-3) (-2) 5 (by decide) (by simp) rfl (by norm_num) rfl (by norm_num) rfl

/-- A string passing `digitRun` with a positive lower bound is non-empty. -/
theorem ne_empty_of_digitRun {lo hi : Nat} {s : String}
    (h : digitRun lo hi s = true) (hlo : 1 ≤ lo) : s ≠ "" := by
  rintro rfl
  simp [digitRun] at h
  omega

/-- A string passing the receiver-name format is non-empty. -/
theorem ne_empty_of_receiverNameOk {s : String}
    (h : receiverNameOk s = true) : s ≠ "" := by
  rintro rfl
  simp [receiverNameOk] at h

/-- C5: a customer transfer request that passes every validation — valid
token, known subject, valid PIN, sufficient balance including the fee,
correct formats, within the daily limit, not a self-transfer — receives
the stubbed HTTP 503 response with `success: false` and the masked
receiver account number, and the store is unchanged. -/
theorem customerTransfer_stubbed_503
    (verify : String → Option Nat) (cmp : String → String → Bool) (s : Bank)
    (hdr : Option String) (tok : String) (cid : Nat) (customer : Customer)
    (r : CustomerTransferRequest) (tt rn ran pin : String) (A : ℚ)
    (hh : extractBearer hdr = some tok) (hv : verify tok = some cid)
    (htt : r.transferType = some tt)
    (httv : tt = "local" ∨ tt = "international")
    (hrn : r.receiverName = some rn)
    (hran : r.receiverAccountNumber = some ran) (hranne : ran ≠ "")
    (hamt : r.amount = some A)
    (hpin : r.transactionPin = some pin)
    (hpinfmt : digitRun 4 6 pin = true)
    (hA1 : 1 ≤ A) (hA2 : A ≤ 10000)
    (hbank : strFalsy r.receiverBankName = false)
    (hint : tt = "international" →
      strFalsy r.receiverSwiftCode = false ∧ strFalsy r.receiverAddress = false ∧
        swiftFormatOk (r.receiverSwiftCode.getD "") = true)
    (hloc : tt = "local" → digitRun 10 12 ran = true)
    (hfind : s.findById cid = some customer)
    (hcmp : cmp pin customer.transactionPin = true)
    (hfee : customer.balance ≥
      A + (if tt == "international" then A * (2 / 100) else 5 / 2))
    (hnameok : receiverNameOk rn = true)
    (hself : ran ≠ customer.accountNumber)
    (hcurr : strFalsy r.currency = false →
      supportedCurrencies.contains (upperStr (r.currency.getD "")) = true) :
    customerTransfer verify cmp s hdr r =
      (.serviceUnavailable
        { success := false, transferType := tt, receiverName := rn,
          receiverAccountNumber := maskAccountNumber ran, amount := A,
          fee := if tt == "international" then A * (2 / 100) else 5 / 2,
          totalAmount := A + (if tt == "international" then A * (2 / 100) else 5 / 2) },
       s) ∧
    (customerTransfer verify cmp s hdr r).1.status = 503 := by
  have hrn' : (rn == "") = false := beq_eq_false_iff_ne.mpr (ne_empty_of_receiverNameOk hnameok)
  have hran' : (ran == "") = false := beq_eq_false_iff_ne.mpr hranne
  have hpin' : (pin == "") = false :=
    beq_eq_false_iff_ne.mpr (ne_empty_of_digitRun hpinfmt (by omega))
  have hA0 : ¬ A ≤ 0 := by linarith
  have hAne : (A == 0) = false := by
    refine beq_eq_false_iff_ne.mpr ?_
    intro h0
    rw [h0] at hA1
    norm_num at hA1
  have hAmin : ¬ A < 1 := not_lt.mpr hA1
  have hAmax : ¬ A > 10000 := not_lt.mpr hA2
  have hselfb : (ran == customer.accountNumber) = false := beq_eq_false_iff_ne.mpr hself
  have hbank2 := hbank
  simp only [strFalsy] at hbank2
  rcases httv with rfl | rfl
  · have hloc' := hloc rfl
    have hfee' : customer.balance ≥ A + 5 / 2 := by simpa using hfee
    have hbal : ¬ customer.balance < A := by linarith
    have hbalfee : ¬ customer.balance < A + 5 / 2 := not_lt.mpr hfee'
    refine ⟨?_, ?_⟩ <;>
      simp [customerTransfer, customerTransferResult, hh, hv, htt, hrn, hran, hamt,
        hpin, strFalsy, ratFalsy, hrn', hran', hpin', hAne, hA0, hAmin, hAmax,
        hbank2, hloc', hpinfmt, hfind, hcmp, hbal, hbalfee, hnameok, hselfb,
        CustomerTransferResult.status]
  · obtain ⟨hsw1, hsw2, hsw3⟩ := hint rfl
    have hsw1b := hsw1
    simp only [strFalsy] at hsw1b
    have hsw2b := hsw2
    simp only [strFalsy] at hsw2b
    have hcurr2 : (match r.currency with | none => true | some c => c == "") = false →
        upperStr (r.currency.getD "") ∈ supportedCurrencies := by
      intro h
      have h2 := hcurr (by simpa [strFalsy] using h)
      simpa using h2
    have hcond : ¬((match r.currency with | none => true | some c => c == "") = false ∧
        upperStr (r.currency.getD "") ∉ supportedCurrencies) := by
      rintro ⟨h1, h2⟩
      exact h2 (hcurr2 h1)
    have hfee' : customer.balance ≥ A + A * (2 / 100) := by simpa using hfee
    have hbal : ¬ customer.balance < A := by nlinarith
    have hbalfee : ¬ customer.balance < A + A * (2 / 100) := not_lt.mpr hfee'
    refine ⟨?_, ?_⟩ <;>
      simp [customerTransfer, customerTransferResult, hh, hv, htt, hrn, hran, hamt,
        hpin, strFalsy, ratFalsy, hrn', hran', hpin', hAne, hA0, hAmin, hAmax,
        hbank2, hsw1b, hsw2b, hsw3, hpinfmt, hfind, hcmp, hbal, hbalfee, hnameok,
        hselfb, hcond, CustomerTransferResult.status]

/-- Witness for C5: a fully valid local transfer of 30 against the sample
store receives the stubbed 503 with `success: false`, the masked account
number, and an unchanged store. -/
theorem customerTransfer_stubbed_503_witness :
    customerTransfer (fun t => if t == "tok" then some 1 else none) (fun p h => p == h)
      sampleBank (some "Bearer tok")
      { transferType := some "local", receiverName := some "Bob Jones",
        receiverAccountNumber := some "2222222222", receiverBankName := some "Halifax",
        receiverSwiftCode := none, receiverAddress := none, amount := some 30,
        currency := none, transactionPin := some "1234" } =
      (.serviceUnavailable
        { success := false, transferType := "local", receiverName := "Bob Jones",
          receiverAccountNumber := "****222222", amount := 30, fee := 5 / 2,
          totalAmount := 30 + 5 / 2 }, sampleBank) := by
  have h := customerTransfer_stubbed_503 (fun t => if t == "tok" then some 1 else none)
    (fun p h => p == h) sampleBank (some "Bearer tok") "tok" 1 sampleCustomer
    { transferType := some "local", receiverName := some "Bob Jones",
      receiverAccountNumber := some "2222222222", receiverBankName := some "Halifax",
      receiverSwiftCode := none, receiverAddress := none, amount := some 30,
      currency := none, transactionPin := some "1234" }
    "local" "Bob Jones" "2222222222" "1234" 30
    (by decide) (by decide) rfl (Or.inl rfl) rfl rfl (by decide) rfl rfl (by decide)
    (by norm_num) (by norm_num) (by decide) (fun hc => absurd hc (by decide))
    (fun _ => by decide)
    (by simp [sampleBank, Bank.findById, sampleCustomer])
    (by decide) (by simp [sampleCustomer]; norm_num) (by decide) (by decide)
    (by intro hc; simp [strFalsy] at hc)
  have hm : maskAccountNumber "2222222222" = "****222222" := by decide
  rw [h.1, hm]
  simp

/-- C7 counterexample: a token resolving to an unknown subject is rejected
by the statement endpoint with 404 (not-found), not an unauthorized error,
and the missing-token and invalid-token rejections carry distinct
messages. -/
theorem statement_auth_not_uniform :
    (customerStatement (fun t => if t == "good" then some 99 else none) sampleBank
      (some "Bearer good") 0 10 "json").status = 404 ∧
    (customerStatement (fun t => if t == "good" then some 99 else none) sampleBank
      (some "Bearer good") 0 10 "json").status ≠ 401 ∧
    (customerStatement (fun t => if t == "good" then some 99 else none) sampleBank
      none 0 10 "json").message ≠
      (customerStatement (fun t => if t == "good" then some 99 else none) sampleBank
        (some "Bearer bad") 0 10 "json").message := by
  refine ⟨?_, ?_, ?_⟩ <;> decide

/-- C7 (amended): the statement endpoint rejects a missing or malformed
bearer token with 401 ('No token provided'), an invalid or expired token
with 401 but a different message ('Invalid or expired token'), and a valid
token whose subject is unknown with 404 ('Customer not found') — the
failure category is distinguishable by the caller. -/
theorem statement_auth_behaviour
    (verify : String → Option Nat) (s : Bank) (hdr : Option String)
    (startDate endDate : Nat) (format : String) (tok : String) (cid : Nat)
    (hrange : startDate ≤ endDate) :
    (extractBearer hdr = none →
      customerStatement verify s hdr startDate endDate format = .noToken ∧
      StatementResult.noToken.status = 401 ∧
      StatementResult.noToken.message = "No token provided") ∧
    (extractBearer hdr = some tok → tok ≠ "" → verify tok = none →
      customerStatement verify s hdr startDate endDate format = .invalidToken ∧
      StatementResult.invalidToken.status = 401 ∧
      StatementResult.invalidToken.message = "Invalid or expired token") ∧
    (extractBearer hdr = some tok → tok ≠ "" → verify tok = some cid →
      s.findById cid = none →
      customerStatement verify s hdr startDate endDate format = .customerNotFound ∧
      StatementResult.customerNotFound.status = 404 ∧
      StatementResult.customerNotFound.message = "Customer not found") := by
  refine ⟨fun h1 => ⟨?_, rfl, rfl⟩, fun h1 h2 h3 => ⟨?_, rfl, rfl⟩,
    fun h1 h2 h3 h4 => ⟨?_, rfl, rfl⟩⟩
  · simp [customerStatement, h1]
  · simp [customerStatement, h1, h3, beq_eq_false_iff_ne.mpr h2]
  · simp [customerStatement, h1, h3, h4, beq_eq_false_iff_ne.mpr h2,
      not_lt.mpr hrange]

/-- Witness for C7 (amended): a concrete token of unknown subject against
the sample store yields the 404 not-found rejection. -/
theorem statement_auth_behaviour_witness :
    customerStatement (fun t => if t == "tok" then some 99 else none) sampleBank
      (some "Bearer tok") 0 10 "json" = .customerNotFound ∧
    StatementResult.customerNotFound.status = 404 ∧
    StatementResult.customerNotFound.message = "Customer not found" :=
  (statement_auth_behaviour (fun t => if t == "tok" then some 99 else none)
    sampleBank (some "Bearer tok") 0 10 "json" "tok" 99 (by norm_num)).2.2
    (by decide) (by decide) (by decide) (by decide)

/-- `creditSum` over a cons. -/
theorem creditSum_cons (cid : Nat) (t : Transaction) (ts : List Transaction) :
    creditSum cid (t :: ts) =
      (if isDebitFor cid t then 0 else t.amount) + creditSum cid ts := by
  by_cases h : isDebitFor cid t = true <;>
    simp [creditSum, List.filter_cons, h]

/-- `debitSum` over a cons. -/
theorem debitSum_cons (cid : Nat) (t : Transaction) (ts : List Transaction) :
    debitSum cid (t :: ts) =
      (if isDebitFor cid t then t.amount else 0) + debitSum cid ts := by
  by_cases h : isDebitFor cid t = true <;>
    simp [debitSum, List.filter_cons, h]

/-- The backward pass computes current balance plus debits minus credits. -/
theorem openingBalanceCalc_eq (cid : Nat) (ts : List Transaction) :
    ∀ b : ℚ, openingBalanceCalc cid b ts = b + debitSum cid ts - creditSum cid ts := by
  induction ts with
  | nil => intro b; simp [openingBalanceCalc, creditSum, debitSum]
  | cons t ts ih =>
    intro b
    have hstep : openingBalanceCalc cid b (t :: ts) =
        openingBalanceCalc cid
          (if isDebitFor cid t then b + t.amount else b - t.amount) ts := rfl
    rw [hstep, ih, creditSum_cons, debitSum_cons]
    by_cases h : isDebitFor cid t = true <;> simp [h] <;> ring

/-- Credit total of one forward-pass step. -/
theorem replayStep_totalCredits (cid : Nat) (op : ℚ) (acc : ReplayAcc)
    (t : Transaction) :
    (replayStep cid op acc t).totalCredits =
      acc.totalCredits + (if isDebitFor cid t then 0 else t.amount) := by
  by_cases h : isDebitFor cid t = true <;> simp [replayStep, h]

/-- Debit total of one forward-pass step. -/
theorem replayStep_totalDebits (cid : Nat) (op : ℚ) (acc : ReplayAcc)
    (t : Transaction) :
    (replayStep cid op acc t).totalDebits =
      acc.totalDebits + (if isDebitFor cid t then t.amount else 0) := by
  by_cases h : isDebitFor cid t = true <;> simp [replayStep, h]

/-- Entry balances of one forward-pass step. -/
theorem replayStep_entries_map (cid : Nat) (op : ℚ) (acc : ReplayAcc)
    (t : Transaction) :
    (replayStep cid op acc t).entries.map StatementEntry.balance =
      acc.entries.map StatementEntry.balance ++
        [op + (acc.totalCredits + (if isDebitFor cid t then 0 else t.amount))
          - (acc.totalDebits + (if isDebitFor cid t then t.amount else 0))] := by
  by_cases h : isDebitFor cid t = true <;> simp [replayStep, h]

/-- Totals of the forward pass from an arbitrary accumulator. -/
theorem foldl_replayStep_totals (cid : Nat) (op : ℚ) (ts : List Transaction) :
    ∀ acc : ReplayAcc,
      (ts.foldl (replayStep cid op) acc).totalCredits
        = acc.totalCredits + creditSum cid ts ∧
      (ts.foldl (replayStep cid op) acc).totalDebits
        = acc.totalDebits + debitSum cid ts := by
  induction ts with
  | nil => intro acc; simp [creditSum, debitSum]
  | cons t ts ih =>
    intro acc
    rw [List.foldl_cons]
    obtain ⟨h1, h2⟩ := ih (replayStep cid op acc t)
    rw [h1, h2, replayStep_totalCredits, replayStep_totalDebits,
      creditSum_cons, debitSum_cons]
    constructor <;> ring

/-- Entry balances of the forward pass: the `i`-th entry carries the
opening balance plus the credits minus the debits of the first `i + 1`
transactions. -/
theorem foldl_replayStep_balances (cid : Nat) (op : ℚ) (ts : List Transaction) :
    ∀ acc : ReplayAcc,
      (ts.foldl (replayStep cid op) acc).entries.map StatementEntry.balance
        = acc.entries.map StatementEntry.balance ++
          (List.range ts.length).map (fun i =>
            op + (acc.totalCredits + creditSum cid (ts.take (i + 1)))
              - (acc.totalDebits + debitSum cid (ts.take (i + 1)))) := by
  induction ts with
  | nil => intro acc; simp
  | cons t ts ih =>
    intro acc
    rw [List.foldl_cons, ih (replayStep cid op acc t),
      replayStep_entries_map, replayStep_totalCredits, replayStep_totalDebits]
    rw [show (t :: ts).length = ts.length + 1 from rfl, List.range_succ_eq_map,
      List.map_cons, List.map_map, List.append_assoc, List.singleton_append]
    congr 1
    congr 1
    · rw [show (t :: ts).take (0 + 1) = [t] from rfl, creditSum_cons, debitSum_cons]
      simp [creditSum, debitSum]
    · refine List.map_congr_left fun i _ => ?_
      show _ = op + (acc.totalCredits + creditSum cid ((t :: ts).take (i + 1 + 1)))
        - (acc.totalDebits + debitSum cid ((t :: ts).take (i + 1 + 1)))
      rw [show (t :: ts).take (i + 1 + 1) = t :: ts.take (i + 1) from rfl,
        creditSum_cons, debitSum_cons]
      ring

/-- Credit sums are invariant under the chronological sort. -/
theorem creditSum_mergeSort (cid : Nat) (ts : List Transaction)
    (le : Transaction → Transaction → Bool) :
    creditSum cid (ts.mergeSort le) = creditSum cid ts :=
  List.Perm.sum_eq (List.Perm.map Transaction.amount
    (List.Perm.filter (fun t => !isDebitFor cid t) (List.mergeSort_perm ts le)))

/-- Debit sums are invariant under the chronological sort. -/
theorem debitSum_mergeSort (cid : Nat) (ts : List Transaction)
    (le : Transaction → Transaction → Bool) :
    debitSum cid (ts.mergeSort le) = debitSum cid ts :=
  List.Perm.sum_eq (List.Perm.map Transaction.amount
    (List.Perm.filter (fun t => isDebitFor cid t) (List.mergeSort_perm ts le)))

/-- Totals of the full forward pass. -/
theorem replay_totalCredits (cid : Nat) (op : ℚ) (ts : List Transaction) :
    (replay cid op ts).totalCredits = creditSum cid ts := by
  have h := (foldl_replayStep_totals cid op ts ⟨0, 0, 0, 0, []⟩).1
  simpa [replay] using h

/-- Debit total of the full forward pass. -/
theorem replay_totalDebits (cid : Nat) (op : ℚ) (ts : List Transaction) :
    (replay cid op ts).totalDebits = debitSum cid ts := by
  have h := (foldl_replayStep_totals cid op ts ⟨0, 0, 0, 0, []⟩).2
  simpa [replay] using h

/-- Entry balances of the full forward pass are the prefix sums. -/
theorem replay_balances (cid : Nat) (op : ℚ) (ts : List Transaction) :
    (replay cid op ts).entries.map StatementEntry.balance =
      (List.range ts.length).map (fun i =>
        op + creditSum cid (ts.take (i + 1)) - debitSum cid (ts.take (i + 1))) := by
  have h := foldl_replayStep_balances cid op ts ⟨0, 0, 0, 0, []⟩
  simpa [replay] using h

/-- C2: for every customer and date range, the statement summary satisfies
`closingBalance = openingBalance + totalCredits - totalDebits` exactly,
where the totals are the sums of the in-range transactions crediting and
debiting the customer. -/
theorem statement_balance_identity
    (verify : String → Option Nat) (s : Bank) (hdr : Option String)
    (tok : String) (cid : Nat) (X : Customer) (startDate endDate : Nat)
    (hh : extractBearer hdr = some tok) (htok : tok ≠ "")
    (hv : verify tok = some cid) (hrange : startDate ≤ endDate)
    (hX : s.findById cid = some X) :
    ∃ sm entries,
      customerStatement verify s hdr startDate endDate "json" = .ok false sm entries ∧
      sm.closingBalance = sm.openingBalance + sm.totalCredits - sm.totalDebits ∧
      sm.totalCredits =
        creditSum cid (s.transactions.filter (inRangeFor cid startDate endDate)) ∧
      sm.totalDebits =
        debitSum cid (s.transactions.filter (inRangeFor cid startDate endDate)) := by
  have hne : (tok == "") = false := beq_eq_false_iff_ne.mpr htok
  have hred : customerStatement verify s hdr startDate endDate "json" =
      .ok false
        { openingBalance := openingBalanceCalc cid X.balance
            (statementTxns s cid startDate endDate)
          closingBalance := X.balance
          totalCredits := (replay cid (openingBalanceCalc cid X.balance
              (statementTxns s cid startDate endDate))
            (statementTxns s cid startDate endDate)).totalCredits
          totalDebits := (replay cid (openingBalanceCalc cid X.balance
              (statementTxns s cid startDate endDate))
            (statementTxns s cid startDate endDate)).totalDebits
          netChange := (replay cid (openingBalanceCalc cid X.balance
              (statementTxns s cid startDate endDate))
            (statementTxns s cid startDate endDate)).totalCredits -
            (replay cid (openingBalanceCalc cid X.balance
                (statementTxns s cid startDate endDate))
              (statementTxns s cid startDate endDate)).totalDebits
          transactionCount := (statementTxns s cid startDate endDate).length
          creditCount := (replay cid (openingBalanceCalc cid X.balance
              (statementTxns s cid startDate endDate))
            (statementTxns s cid startDate endDate)).creditCount
          debitCount := (replay cid (openingBalanceCalc cid X.balance
              (statementTxns s cid startDate endDate))
            (statementTxns s cid startDate endDate)).debitCount }
        (replay cid (openingBalanceCalc cid X.balance
            (statementTxns s cid startDate endDate))
          (statementTxns s cid startDate endDate)).entries := by
    simp [customerStatement, hh, hne, hv, hX, not_lt.mpr hrange]
  refine ⟨_, _, hred, ?_, ?_, ?_⟩
  · rw [replay_totalCredits, replay_totalDebits, openingBalanceCalc_eq]
    ring
  · rw [replay_totalCredits]
    exact creditSum_mergeSort cid _ byDate
  · rw [replay_totalDebits]
    exact debitSum_mergeSort cid _ byDate

/-- C6: the statement reconstruction computes the opening balance by
reversing each in-range transaction's effect on the current stored balance
(adding back debits, subtracting back credits), and replays forward in
chronological order so that the `i`-th entry's running balance is the
opening balance plus the credits minus the debits of the first `i + 1`
in-range transactions. -/
theorem statement_reconstruction
    (verify : String → Option Nat) (s : Bank) (hdr : Option String)
    (tok : String) (cid : Nat) (X : Customer) (startDate endDate : Nat)
    (hh : extractBearer hdr = some tok) (htok : tok ≠ "")
    (hv : verify tok = some cid) (hrange : startDate ≤ endDate)
    (hX : s.findById cid = some X) :
    ∃ sm entries,
      customerStatement verify s hdr startDate endDate "json" = .ok false sm entries ∧
      sm.openingBalance = X.balance
        + debitSum cid (statementTxns s cid startDate endDate)
        - creditSum cid (statementTxns s cid startDate endDate) ∧
      entries.map StatementEntry.balance =
        (List.range (statementTxns s cid startDate endDate).length).map (fun i =>
          sm.openingBalance
            + creditSum cid ((statementTxns s cid startDate endDate).take (i + 1))
            - debitSum cid ((statementTxns s cid startDate endDate).take (i + 1))) := by
  have hne : (tok == "") = false := beq_eq_false_iff_ne.mpr htok
  have hred : customerStatement verify s hdr startDate endDate "json" =
      .ok false
        { openingBalance := openingBalanceCalc cid X.balance
            (statementTxns s cid startDate endDate)
          closingBalance := X.balance
          totalCredits := (replay cid (openingBalanceCalc cid X.balance
              (statementTxns s cid startDate endDate))
            (statementTxns s cid startDate endDate)).totalCredits
          totalDebits := (replay cid (openingBalanceCalc cid X.balance
              (statementTxns s cid startDate endDate))
            (statementTxns s cid startDate endDate)).totalDebits
          netChange := (replay cid (openingBalanceCalc cid X.balance
              (statementTxns s cid startDate endDate))
            (statementTxns s cid startDate endDate)).totalCredits -
            (replay cid (openingBalanceCalc cid X.balance
                (statementTxns s cid startDate endDate))
              (statementTxns s cid startDate endDate)).totalDebits
          transactionCount := (statementTxns s cid startDate endDate).length
          creditCount := (replay cid (openingBalanceCalc cid X.balance
              (statementTxns s cid startDate endDate))
            (statementTxns s cid startDate endDate)).creditCount
          debitCount := (replay cid (openingBalanceCalc cid X.balance
              (statementTxns s cid startDate endDate))
            (statementTxns s cid startDate endDate)).debitCount }
        (replay cid (openingBalanceCalc cid X.balance
            (statementTxns s cid startDate endDate))
          (statementTxns s cid startDate endDate)).entries := by
    simp [customerStatement, hh, hne, hv, hX, not_lt.mpr hrange]
  refine ⟨_, _, hred, openingBalanceCalc_eq cid _ X.balance, ?_⟩
  exact replay_balances cid _ _

/-- The in-range chronological transactions of the sample history. -/
theorem statementTxns_sample : statementTxns sampleBankTx 1 0 10 = sampleTxns := by
  have hf : sampleBankTx.transactions.filter (inRangeFor 1 0 10) = sampleTxns := by
    decide
  rw [statementTxns, hf]
  exact List.mergeSort_of_sorted (by decide)

/-- Witness for C2: on the sample history the summary satisfies the
balance identity with concrete numbers (closing 100 = opening 90 +
credits 30 - debits 20). -/
theorem statement_balance_identity_witness :
    (∃ sm entries,
      customerStatement (fun t => if t == "tok" then some 1 else none) sampleBankTx
        (some "Bearer tok") 0 10 "json" = .ok false sm entries ∧
      sm.closingBalance = sm.openingBalance + sm.totalCredits - sm.totalDebits ∧
      sm.totalCredits = creditSum 1
        (sampleBankTx.transactions.filter (inRangeFor 1 0 10)) ∧
      sm.totalDebits = debitSum 1
        (sampleBankTx.transactions.filter (inRangeFor 1 0 10))) ∧
    creditSum 1 (sampleBankTx.transactions.filter (inRangeFor 1 0 10)) = 30 ∧
    debitSum 1 (sampleBankTx.transactions.filter (inRangeFor 1 0 10)) = 20 := by
  refine ⟨statement_balance_identity (fun t => if t == "tok" then some 1 else none)
    sampleBankTx (some "Bearer tok") "tok" 1 sampleCustomer 0 10
    (by decide) (by decide) (by decide) (by norm_num) (by decide), ?_, ?_⟩ <;>
    simp [creditSum, debitSum, sampleBankTx, sampleTxns, inRangeFor, isDebitFor,
      List.filter]

/-- Witness for C6: on the sample history the reconstruction applies, and
the concrete opening balance (current 100, add back the 20 debit,
subtract the 30 credit) is 90. -/
theorem statement_reconstruction_witness :
    (∃ sm entries,
      customerStatement (fun t => if t == "tok" then some 1 else none) sampleBankTx
        (some "Bearer tok") 0 10 "json" = .ok false sm entries ∧
      sm.openingBalance = sampleCustomer.balance
        + debitSum 1 (statementTxns sampleBankTx 1 0 10)
        - creditSum 1 (statementTxns sampleBankTx 1 0 10) ∧
      entries.map StatementEntry.balance =
        (List.range (statementTxns sampleBankTx 1 0 10).length).map (fun i =>
          sm.openingBalance
            + creditSum 1 ((statementTxns sampleBankTx 1 0 10).take (i + 1))
            - debitSum 1 ((statementTxns sampleBankTx 1 0 10).take (i + 1)))) ∧
    sampleCustomer.balance + debitSum 1 (statementTxns sampleBankTx 1 0 10)
      - creditSum 1 (statementTxns sampleBankTx 1 0 10) = 90 := by
  refine ⟨statement_reconstruction (fun t => if t == "tok" then some 1 else none)
    sampleBankTx (some "Bearer tok") "tok" 1 sampleCustomer 0 10
    (by decide) (by decide) (by decide) (by norm_num) (by decide), ?_⟩
  rw [statementTxns_sample]
  simp [creditSum, debitSum, sampleTxns, isDebitFor, sampleCustomer, List.filter]
  norm_num

/-- Length of the decimal rendering of a number in `[10^k, 10^(k+1))`. -/
theorem decimalDigits_length (k : Nat) :
    ∀ n, 10 ^ k ≤ n → n < 10 ^ (k + 1) → (decimalDigits n).length = k + 1 := by
  induction k with
  | zero =>
    intro n h1 h2
    rw [decimalDigits, if_pos (by simpa using h2)]
    rfl
  | succ k ih =>
    intro n h1 h2
    have h10 : ¬ n < 10 := by
      have hp : (10 : Nat) ^ 1 ≤ 10 ^ (k + 1) :=
        Nat.pow_le_pow_right (by norm_num) (by omega)
      simp only [pow_one] at hp
      omega
    rw [decimalDigits, if_neg h10, List.length_append]
    have e1 : 10 ^ k ≤ n / 10 := by
      rw [Nat.le_div_iff_mul_le (by norm_num)]
      calc 10 ^ k * 10 = 10 ^ (k + 1) := by ring
        _ ≤ n := h1
    have e2 : n / 10 < 10 ^ (k + 1) := by
      rw [Nat.div_lt_iff_lt_mul (by norm_num)]
      calc n < 10 ^ (k + 1 + 1) := h2
        _ = 10 ^ (k + 1) * 10 := by ring
    rw [ih (n / 10) e1 e2]
    rfl

/-- The decimal rendering consists of decimal digit characters. -/
theorem decimalDigits_all_digits (n : Nat) :
    ∀ c ∈ decimalDigits n, c.isDigit := by
  induction n using Nat.strong_induction_on with
  | _ n ih =>
    rw [decimalDigits]
    by_cases h : n < 10
    · rw [if_pos h]
      intro c hc
      rw [List.mem_singleton] at hc
      subst hc
      interval_cases n <;> decide
    · rw [if_neg h]
      intro c hc
      rcases List.mem_append.mp hc with hc | hc
      · exact ih (n / 10) (Nat.div_lt_self (by omega) (by omega)) c hc
      · rw [List.mem_singleton] at hc
        subst hc
        have hd : n % 10 < 10 := Nat.mod_lt _ (by omega)
        set d := n % 10 with hdd
        clear_value d
        interval_cases d <;> decide

/-- A successful generation loop returns the rendering of one of the
draws, unused by every existing customer. -/
theorem genAccountLoop_ok (rand : Nat → Nat) (customers : List Customer) :
    ∀ fuel attempt a, genAccountLoop rand customers attempt fuel = some a →
      (∃ i, attempt ≤ i ∧ i < attempt + fuel ∧ a = natDecimal (rand i)) ∧
      ∀ c ∈ customers, c.accountNumber ≠ a := by
  intro fuel
  induction fuel with
  | zero => intro attempt a h; simp [genAccountLoop] at h
  | succ fuel ih =>
    intro attempt a h
    rw [genAccountLoop] at h
    by_cases hall :
        (customers.all fun c => c.accountNumber != natDecimal (rand attempt)) = true
    · rw [if_pos hall] at h
      injection h with h
      subst h
      refine ⟨⟨attempt, le_refl _, by omega, rfl⟩, fun c hc => ?_⟩
      exact bne_iff_ne.mp (List.all_eq_true.mp hall c hc)
    · rw [if_neg hall] at h
      obtain ⟨⟨i, hi1, hi2, hieq⟩, hun⟩ := ih (attempt + 1) a h
      exact ⟨⟨i, by omega, by omega, hieq⟩, hun⟩

/-- When every remaining draw collides, the generation loop fails. -/
theorem genAccountLoop_none (rand : Nat → Nat) (customers : List Customer) :
    ∀ fuel attempt,
      (∀ i, attempt ≤ i → i < attempt + fuel →
        ∃ c ∈ customers, c.accountNumber = natDecimal (rand i)) →
      genAccountLoop rand customers attempt fuel = none := by
  intro fuel
  induction fuel with
  | zero => intro attempt _; rfl
  | succ fuel ih =>
    intro attempt hcol
    obtain ⟨c, hc, hceq⟩ := hcol attempt (le_refl _) (by omega)
    have hall :
        (customers.all fun c => c.accountNumber != natDecimal (rand attempt)) = false := by
      rw [List.all_eq_false]
      exact ⟨c, hc, by simp [hceq]⟩
    rw [genAccountLoop]
    rw [if_neg (by rw [hall]; exact Bool.false_ne_true)]
    exact ih (attempt + 1) (fun i h1 h2 => hcol i (by omega) (by omega))

/-- A successfully generated account number is one of the first ten draws
and is unused. -/
theorem generateUniqueAccountNumber_ok (rand : Nat → Nat)
    (customers : List Customer) (a : String)
    (h : generateUniqueAccountNumber rand customers = .ok a) :
    (∃ i, i < 10 ∧ a = natDecimal (rand i)) ∧
    ∀ c ∈ customers, c.accountNumber ≠ a := by
  unfold generateUniqueAccountNumber at h
  cases hloop : genAccountLoop rand customers 0 10 with
  | none => rw [hloop] at h; cases h
  | some b =>
    rw [hloop] at h
    injection h with h
    subst h
    obtain ⟨⟨i, _, hi2, hieq⟩, hun⟩ := genAccountLoop_ok rand customers 10 0 b hloop
    exact ⟨⟨i, by omega, hieq⟩, hun⟩

/-- C9: under draws in the 10-digit range, every account number returned
by `generateUniqueAccountNumber` is a string of exactly 10 decimal digits
that equals no existing customer's account number; and when all 10
attempts collide, the function fails with an error instead of returning a
duplicate. -/
theorem generateUniqueAccountNumber_spec (rand : Nat → Nat)
    (customers : List Customer)
    (hr : ∀ i, i < 10 → 1000000000 ≤ rand i ∧ rand i < 10000000000) :
    (∀ a, generateUniqueAccountNumber rand customers = .ok a →
      a.length = 10 ∧ (∀ c ∈ a.data, c.isDigit) ∧
      ∀ c ∈ customers, c.accountNumber ≠ a) ∧
    ((∀ i, i < 10 → ∃ c ∈ customers, c.accountNumber = natDecimal (rand i)) →
      generateUniqueAccountNumber rand customers =
        .error "Failed to generate unique account number after multiple attempts") := by
  constructor
  · intro a ha
    obtain ⟨⟨i, hi, rfl⟩, hun⟩ := generateUniqueAccountNumber_ok rand customers a ha
    obtain ⟨h1, h2⟩ := hr i hi
    have h9 : (10 : Nat) ^ 9 = 1000000000 := by norm_num
    have h10 : (10 : Nat) ^ 10 = 10000000000 := by norm_num
    refine ⟨?_, ?_, hun⟩
    · show (decimalDigits (rand i)).asString.length = 10
      rw [show (decimalDigits (rand i)).asString.length
          = (decimalDigits (rand i)).length from rfl]
      exact decimalDigits_length 9 (rand i) (by omega) (by rw [show 9 + 1 = 10 from rfl]; omega)
    · intro c hc
      exact decimalDigits_all_digits (rand i) c hc
  · intro hcol
    unfold generateUniqueAccountNumber
    rw [genAccountLoop_none rand customers 10 0 (fun i _ h2 => hcol i (by omega))]

/-- Witness for C9: with fresh draws starting at 1000000000 against an
empty customer collection, the first draw is returned and has 10 digits. -/
theorem generateUniqueAccountNumber_spec_witness :
    generateUniqueAccountNumber (fun i => 1000000000 + i) [] =
      .ok (natDecimal 1000000000) ∧
    (natDecimal 1000000000).length = 10 := by
  have heval : generateUniqueAccountNumber (fun i => 1000000000 + i) [] =
      .ok (natDecimal 1000000000) := by
    simp [generateUniqueAccountNumber, genAccountLoop]
  exact ⟨heval,
    ((generateUniqueAccountNumber_spec (fun i => 1000000000 + i) [] (by decide)).1
      (natDecimal 1000000000) heval).1⟩

/-- C8: with valid fields, a fresh email, and a successful account-number
generation, the first registration succeeds and appends exactly one
customer document storing the lowercased email; a second registration with
that stored email is rejected with a 409 conflict and creates no record. -/
theorem register_duplicate_email
    (hash : String → String) (rand1 rand2 : Nat → Nat) (s : Bank)
    (r1 r2 : RegisterRequest) (e p1 p2 acct : String)
    (hfn : strFalsy r1.firstname = false) (hln : strFalsy r1.lastname = false)
    (hem : r1.email = some e) (hene : e ≠ "")
    (hpw : strFalsy r1.password = false)
    (hp1 : r1.transactionPin = some p1) (hp1f : digitRun 4 6 p1 = true)
    (hfresh : s.findByEmail e = none)
    (hgen : generateUniqueAccountNumber rand1 s.customers = .ok acct)
    (hlow : ∀ c ∈ s.customers, c.email ≠ lowerStr e)
    (hlne : lowerStr e ≠ "")
    (hfn2 : strFalsy r2.firstname = false) (hln2 : strFalsy r2.lastname = false)
    (hem2 : r2.email = some (lowerStr e))
    (hpw2 : strFalsy r2.password = false)
    (hp2 : r2.transactionPin = some p2) (hp2f : digitRun 4 6 p2 = true) :
    ∃ newC : Customer,
      register hash rand1 s r1 = (.success newC,
        { s with customers := s.customers ++ [newC], nextId := s.nextId + 1 }) ∧
      newC.email = lowerStr e ∧
      register hash rand2
        { s with customers := s.customers ++ [newC], nextId := s.nextId + 1 } r2 =
        (.emailExists,
          { s with customers := s.customers ++ [newC], nextId := s.nextId + 1 }) ∧
      RegisterResult.emailExists.status = 409 := by
  have hstr_e : (e == "") = false := beq_eq_false_iff_ne.mpr hene
  have hstr_le : (lowerStr e == "") = false := beq_eq_false_iff_ne.mpr hlne
  have hstr_p1 : (p1 == "") = false :=
    beq_eq_false_iff_ne.mpr (ne_empty_of_digitRun hp1f (by omega))
  have hstr_p2 : (p2 == "") = false :=
    beq_eq_false_iff_ne.mpr (ne_empty_of_digitRun hp2f (by omega))
  have hunused := (generateUniqueAccountNumber_ok rand1 s.customers acct hgen).2
  have hany : (s.customers.any fun c =>
      c.email == lowerStr e || c.accountNumber == acct) = false := by
    rw [List.any_eq_false]
    intro c hc
    simp [beq_eq_false_iff_ne.mpr (hlow c hc),
      beq_eq_false_iff_ne.mpr (hunused c hc)]
  have hfnm := hfn
  have hlnm := hln
  have hpwm := hpw
  have hfn2m := hfn2
  have hln2m := hln2
  have hpw2m := hpw2
  simp only [strFalsy] at hfnm hlnm hpwm hfn2m hln2m hpw2m
  refine ⟨{ id := s.nextId, firstname := r1.firstname.getD "",
            lastname := r1.lastname.getD "", email := lowerStr e,
            accountNumber := acct, password := hash (r1.password.getD ""),
            balance := 0, currency := "USD", transactionPin := hash p1 },
    ?_, rfl, ?_, rfl⟩
  · simp [register, hfnm, hlnm, hem, hpwm, hp1, hp1f, hfresh, hgen, hany,
      strFalsy, hstr_e, hstr_p1]
  · have hfind2 : (Bank.findByEmail
        { s with
          customers := (s.customers ++
            [{ id := s.nextId, firstname := r1.firstname.getD "",
               lastname := r1.lastname.getD "", email := lowerStr e,
               accountNumber := acct, password := hash (r1.password.getD ""),
               balance := 0, currency := "USD", transactionPin := hash p1 }]),
          nextId := s.nextId + 1 } (lowerStr e)) =
        some { id := s.nextId, firstname := r1.firstname.getD "",
               lastname := r1.lastname.getD "", email := lowerStr e,
               accountNumber := acct, password := hash (r1.password.getD ""),
               balance := 0, currency := "USD", transactionPin := hash p1 } := by
      show (List.find? _ (_ ++ _)) = _
      rw [List.find?_append]
      have hnone : (s.customers.find? fun c => c.email == lowerStr e) = none := by
        rw [List.find?_eq_none]
        intro c hc
        simp [beq_eq_false_iff_ne.mpr (hlow c hc)]
      rw [hnone]
      simp [List.find?]
    simp [register, hfn2m, hln2m, hem2, hpw2m, hp2, hp2f, hfind2,
      strFalsy, hstr_le, hstr_p2]

/-- Witness for C8: a registration into an empty store followed by a
second registration with the stored email. -/
theorem register_duplicate_email_witness :
    ∃ newC : Customer,
      register (fun x => "h" ++ x) (fun i => 1000000000 + i)
        { customers := [], transactions := [], nextId := 0 }
        { firstname := some "Carol", lastname := some "Davis",
          email := some "Carol@X.com", password := some "pw",
          transactionPin := some "4321" } = (.success newC,
        { customers := [newC], transactions := [], nextId := 1 }) ∧
      newC.email = lowerStr "Carol@X.com" ∧
      register (fun x => "h" ++ x) (fun i => 1000000000 + i)
        { customers := [newC], transactions := [], nextId := 1 }
        { firstname := some "Dan", lastname := some "Evans",
          email := some (lowerStr "Carol@X.com"), password := some "pw2",
          transactionPin := some "9999" } =
        (.emailExists, { customers := [newC], transactions := [], nextId := 1 }) ∧
      RegisterResult.emailExists.status = 409 := by
  have h := register_duplicate_email (fun x => "h" ++ x) (fun i => 1000000000 + i)
    (fun i => 1000000000 + i) { customers := [], transactions := [], nextId := 0 }
    { firstname := some "Carol", lastname := some "Davis",
      email := some "Carol@X.com", password := some "pw",
      transactionPin := some "4321" }
    { firstname := some "Dan", lastname := some "Evans",
      email := some (lowerStr "Carol@X.com"), password := some "pw2",
      transactionPin := some "9999" }
    "Carol@X.com" "4321" "9999" (natDecimal 1000000000)
    (by decide) (by decide) rfl (by decide) (by decide) rfl (by decide) rfl
    (by simp [generateUniqueAccountNumber, genAccountLoop])
    (by intro c hc; cases hc) (by decide)
    (by decide) (by decide) rfl (by decide) rfl (by decide)
  simpa using h
